import Mathlib

/-!
Verification development for the vendor-master dashboard
(`supply_vendor_dashboard.py`).

Shallow embedding conventions:
* A pandas scalar cell is a `Cell`: a string, a number (modelled as an
  integer; the exact numeric representation is immaterial to the
  properties below), or a missing value (`NaN`/`None`, collapsed into
  `Cell.nan`).
* A pandas `Series` row (as obtained from `iterrows()` / `iloc`) is an
  association list from column label to cell; `col in row` is key
  membership and `row[col]` is the first binding.
* A `DataFrame` is a list of column labels plus positional rows.
* Python operations that can raise (`df[missing_col]` → `KeyError`,
  `str.join` over non-`str` items → `TypeError`, `sorted` over
  incomparable items → `TypeError`) are embedded with `Except String`.
-/

set_option autoImplicit false

/-- A scalar cell of the vendor table. -/
inductive Cell where
  | str (s : String)
  | num (n : Int)
  | nan
  deriving DecidableEq, Repr

/-- A row as seen by `extract_vendor_info`: a pandas `Series`, i.e. a
mapping from column label to cell value. -/
abbrev Row := List (String × Cell)

/-- The vendor table: column labels plus positional rows.  A ragged row is
read back with `Cell.nan` padding, mirroring pandas alignment. -/
structure DataFrame where
  cols : List String
  rows : List (List Cell)
  deriving DecidableEq, Repr

/-- Column-name constants, lines 7-24 of the source. -/
def VENDOR_CODE_COL : String := "Vendor Code"

def VENDOR_NAME_COL : String := "Vendor Name"

def NAME_COL : String := "Name"

def EMAIL_COL : String := "Email"

def PHONE_COL : String := "Phone Number"

def CATEGORY_COL : String := "Category"

def CUISINE_1_COL : String := "Cuisine type 1"

def CUISINE_2_COL : String := "Cuisine Type 2"

def SERVICE_MODEL_COL : String := "Service Model"

def SERVING_CAP_COL : String := "Serving Capacity"

def STATE_COL : String := "State"

def CITY_COL : String := "City"

def AREA_COL : String := "Area"

def OTHER_CITY_COL : String := "Other City 1"

def AREA_1_COL : String := "Area 1"

/-- Model of `pd.notna` on a scalar: false exactly on a missing value. -/
def pyNotna : Cell → Bool
  | Cell.nan => false
  | _ => true

/-- Python `==` between two cells, as pandas applies it elementwise:
equal strings or equal numbers compare `True`; `NaN == x` is `False`
(including `NaN == NaN`), and a string never equals a number. -/
def cellBEq : Cell → Cell → Bool
  | Cell.str a, Cell.str b => a == b
  | Cell.num a, Cell.num b => a == b
  | _, _ => false

/-- Python `str(value)` on a cell: a string is itself, a number prints in
decimal, and a missing value prints as the literal `"nan"` (pandas
`astype(str)` behaviour). -/
def cellStr : Cell → String
  | Cell.str s => s
  | Cell.num n => toString n
  | Cell.nan => "nan"

/-- Whether the cell is a Python `str` instance. -/
def cellIsStr : Cell → Bool
  | Cell.str _ => true
  | _ => false

/-- Whether the cell is numeric. -/
def cellIsNum : Cell → Bool
  | Cell.num _ => true
  | _ => false

/-- Lines 68-71: `safe_get(row, col, default)` returns `row[col]` when the
column is present in the row and the value is not missing, and the default
otherwise.  Call sites pass the default explicitly (`"-"` or `""`). -/
def safe_get (row : Row) (col : String) (dflt : Cell) : Cell :=
  match row.lookup col with
  | some v => if pyNotna v then v else dflt
  | none => dflt

/-- Lines 84-88: the location loop of `extract_vendor_info`.  For each of
the five location columns in order, if the column is present and not
missing, append `str(row[col])`; then join with `", "`, or use `"-"` when
nothing was collected. -/
def locationOf (row : Row) : String :=
  let location_parts :=
    [AREA_COL, AREA_1_COL, CITY_COL, OTHER_CITY_COL, STATE_COL].foldl
      (fun acc col =>
        match row.lookup col with
        | some v => if pyNotna v then acc ++ [cellStr v] else acc
        | none => acc)
      []
  if location_parts.isEmpty then "-" else String.intercalate ", " location_parts

/-- Line 93: the surviving cuisine values — `cuisine1` and `cuisine2`
(fetched with default `""`), with any value `== ""` or `== "-"` dropped
(Python `c not in ["", "-"]` uses `==` against those two strings). -/
def cuisineParts (row : Row) : List Cell :=
  let cuisine1 := safe_get row CUISINE_1_COL (Cell.str "")
  let cuisine2 := safe_get row CUISINE_2_COL (Cell.str "")
  [cuisine1, cuisine2].filter
    (fun c => !(cellBEq c (Cell.str "") || cellBEq c (Cell.str "-")))

/-- All items of the list as Python `str` instances, or `none` when some
item is not a `str`. -/
def cellsAsStrings : List Cell → Option (List String)
  | [] => some []
  | Cell.str s :: rest => (cellsAsStrings rest).map (fun ss => s :: ss)
  | _ :: _ => none

/-- Python `sep.join(parts)`: concatenates when every part is a `str`, and
raises `TypeError` otherwise. -/
def pyJoin (sep : String) (parts : List Cell) : Except String String :=
  match cellsAsStrings parts with
  | some ss => Except.ok (String.intercalate sep ss)
  | none => Except.error "TypeError"

/-- Lines 91-94: the composed cuisine field — `" / ".join(cuisine_parts)
if cuisine_parts else "-"`.  The join raises `TypeError` when a surviving
part is not a string. -/
def cuisineTextOf (row : Row) : Except String String :=
  let parts := cuisineParts row
  if parts.isEmpty then Except.ok "-" else pyJoin " / " parts

/-- The insertion-ordered keys of the dict literal at lines 99-110. -/
def fixedKeys : List String :=
  ["vendor_code", "vendor_name", "owner_name", "phone", "email",
   "location", "category", "cuisine_text", "service_model",
   "serving_capacity"]

/-- Lines 74-110: `extract_vendor_info(row)` builds the display dict for
one row.  Every simple field goes through `safe_get`; the location field
is total; the cuisine join can raise `TypeError`, which is the sole way
this function can fail. -/
def extract_vendor_info (row : Row) : Except String (List (String × Cell)) :=
  let vendor_code := safe_get row VENDOR_CODE_COL (Cell.str "-")
  let vendor_name := safe_get row VENDOR_NAME_COL (Cell.str "-")
  let owner_name := safe_get row NAME_COL (Cell.str "-")
  let phone := safe_get row PHONE_COL (Cell.str "-")
  let email := safe_get row EMAIL_COL (Cell.str "-")
  let location := locationOf row
  let category := safe_get row CATEGORY_COL (Cell.str "-")
  match cuisineTextOf row with
  | Except.error e => Except.error e
  | Except.ok cuisine_text =>
    let service_model := safe_get row SERVICE_MODEL_COL (Cell.str "-")
    let serving_capacity := safe_get row SERVING_CAP_COL (Cell.str "-")
    Except.ok
      [("vendor_code", vendor_code),
       ("vendor_name", vendor_name),
       ("owner_name", owner_name),
       ("phone", phone),
       ("email", email),
       ("location", Cell.str location),
       ("category", category),
       ("cuisine_text", Cell.str cuisine_text),
       ("service_model", service_model),
       ("serving_capacity", serving_capacity)]

/-- Index of a column label among the frame's columns (first occurrence),
`none` when the label is absent — guarding the `KeyError` of `df[col]`. -/
def colIdxAux (c : String) : List String → Option Nat
  | [] => none
  | x :: xs => if x == c then some 0 else (colIdxAux c xs).map (fun j => j + 1)

/-- Position of column `c` in `df.cols`, when present. -/
def colIdx (df : DataFrame) (c : String) : Option Nat :=
  colIdxAux c df.cols

/-- Read cell `j` of a positional row, with pandas `NaN` padding. -/
def rowGet (r : List Cell) (j : Nat) : Cell :=
  r.getD j Cell.nan

/-- The values of column `j`, top to bottom. -/
def colVals (df : DataFrame) (j : Nat) : List Cell :=
  df.rows.map (fun r => rowGet r j)

/-- Model of `df[c]` for a column label: the column values, or a `KeyError`
carrying the label when the column is absent. -/
def dfColumn (df : DataFrame) (c : String) : Except String (List Cell) :=
  match colIdx df c with
  | some j => Except.ok (colVals df j)
  | none => Except.error c

/-- pandas `Series.unique()`: distinct values in order of first
appearance, with pandas `==` (`cellBEq`) as the equality. -/
def pdUnique (l : List Cell) : List Cell :=
  l.foldl (fun acc c => if acc.any (fun d => cellBEq d c) then acc else acc ++ [c]) []

/-- Python `<=` between cells of the same kind (strings compare
lexicographically, numbers numerically); unrelated kinds are
incomparable. -/
def cellLe : Cell → Cell → Bool
  | Cell.str a, Cell.str b => decide (a ≤ b)
  | Cell.num a, Cell.num b => decide (a ≤ b)
  | _, _ => false

/-- Insertion step of the sort model. -/
def insertLe (c : Cell) : List Cell → List Cell
  | [] => [c]
  | d :: ds => if cellLe c d then c :: d :: ds else d :: insertLe c ds

/-- Insertion sort over cells. -/
def insSortLe : List Cell → List Cell
  | [] => []
  | c :: cs => insertLe c (insSortLe cs)

/-- Python `sorted(list)`: sorts a homogeneous list of strings or of
numbers; a mixed list raises `TypeError` (incomparable types). -/
def pySorted (l : List Cell) : Except String (List Cell) :=
  if l.all cellIsStr || l.all cellIsNum then Except.ok (insSortLe l)
  else Except.error "TypeError"

/-- Line 188: `sorted(df[VENDOR_NAME_COL].dropna().unique().tolist())`.
The unguarded `df[VENDOR_NAME_COL]` raises `KeyError` when the
vendor-name column is absent from the uploaded table. -/
def vendor_list (df : DataFrame) : Except String (List Cell) :=
  match dfColumn df VENDOR_NAME_COL with
  | Except.error e => Except.error e
  | Except.ok col => pySorted (pdUnique (col.filter pyNotna))

/-- Python `str.strip()`: removes leading and trailing whitespace
characters. -/
def pyStrip (s : String) : String :=
  ⟨((s.data.dropWhile Char.isWhitespace).reverse.dropWhile Char.isWhitespace).reverse⟩

/-- Lines 38-63: `load_vendor_data`.  Parsing (CSV via `read_csv`,
spreadsheet via `read_excel`) is delegated to pandas and takes the
successfully parsed frame as input here; the `ImportError` branch halts
before a frame exists.  The function's own effect on the parsed frame is
line 62: `df.columns = df.columns.str.strip()`. -/
def load_vendor_data (parsed : DataFrame) : DataFrame :=
  { cols := parsed.cols.map pyStrip, rows := parsed.rows }

/-- A column is string-typed (pandas dtype `object`/`string`, as selected
by `select_dtypes(include=["object", "string"])`) when it holds at least
one Python string value. -/
def colIsTextual (cells : List Cell) : Bool :=
  cells.any cellIsStr

/-- Line 239: the positions of the frame's textual columns. -/
def stringColIdxs (df : DataFrame) : List Nat :=
  (List.range df.cols.length).filter (fun j => colIsTextual (colVals df j))

/-- Substring containment on character lists. -/
def charsContain (pat : List Char) : List Char → Bool
  | [] => pat.isEmpty
  | d :: ds => List.isPrefixOf pat (d :: ds) || charsContain pat ds

/-- Model of `Series.str.contains(pat, case=False, na=False)` for a pattern free
of regex metacharacters (pandas compiles the pattern as a regular
expression; on a metacharacter-free pattern this is case-insensitive
substring containment).  `na=False` is moot after `astype(str)`. -/
def pyContainsCI (hay pat : String) : Bool :=
  charsContain (pat.data.map Char.toLower) (hay.data.map Char.toLower)

/-- Whether the character is one of Python's regular-expression
metacharacters.  A pattern containing none of them is matched by
`re`/`Series.str.contains` exactly as a literal substring, the domain on
which `pyContainsCI` is a faithful model of the source's search. -/
def isRegexMeta (c : Char) : Bool :=
  ['.', '^', '$', '*', '+', '?', '\x7b', '\x7d', '[', ']', '\\', '|', '(', ')'].contains c

/-- Lines 241-247: the per-row search mask — some textual column whose
stringified cell contains the query.  Faithful to the source's
regex-based `str.contains` only for queries free of regex metacharacters
(see `pyContainsCI` and `isRegexMeta`). -/
def rowTextMatch (df : DataFrame) (q : String) (r : List Cell) : Bool :=
  (stringColIdxs df).any (fun j => pyContainsCI (cellStr (rowGet r j)) q)

/-- Lines 238-248: the global-search step.  A falsy (empty) query skips
the step entirely, as does a frame with no textual columns
(`if len(string_cols) > 0`); otherwise rows are kept by the mask.
Like `rowTextMatch`, this models the source's behaviour only for queries
free of regex metacharacters; a metacharacter query makes the source
over-match or raise `re.error` instead. -/
def searchFiltered (df : DataFrame) (q : String) : DataFrame :=
  if q = "" then df
  else if (stringColIdxs df).isEmpty then df
  else { df with rows := df.rows.filter (rowTextMatch df q) }

/-- Lines 250-254: the serving-capacity step.  Skipped when the selector
is `"All"` or the serving-capacity column is absent; otherwise keeps rows
whose `astype(str)` value equals the selector. -/
def capFiltered (df : DataFrame) (sel : String) : DataFrame :=
  if sel = "All" then df
  else
    match colIdx df SERVING_CAP_COL with
    | some j => { df with rows := df.rows.filter (fun r => cellStr (rowGet r j) == sel) }
    | none => df

/-- Lines 234-254: advanced mode applies the search step and then the
serving-capacity step to a copy of the table. -/
def advancedResults (df : DataFrame) (q : String) (sel : String) : DataFrame :=
  capFiltered (searchFiltered df q) sel

/-- Outcome of the basic-mode branch (lines 276-307): the "select a
vendor" prompt, the "No data found" warning, or the row chosen for
display. -/
inductive BasicOutcome where
  | prompt
  | noData
  | showRow (r : List Cell)
  deriving DecidableEq, Repr

/-- Lines 280-289: basic mode.  `"All Vendors"` shows a prompt; otherwise
`df[df[VENDOR_NAME_COL] == selected_vendor]` (a `KeyError` when the
vendor-name column is absent) keeps the matching rows in order, and the
first one (`iloc[0]`) is displayed, or a "no data" warning when none
match. -/
def basicMode (df : DataFrame) (sel : Cell) : Except String BasicOutcome :=
  if cellBEq sel (Cell.str "All Vendors") then Except.ok BasicOutcome.prompt
  else
    match colIdx df VENDOR_NAME_COL with
    | none => Except.error VENDOR_NAME_COL
    | some j =>
      match df.rows.filter (fun r => cellBEq (rowGet r j) sel) with
      | [] => Except.ok BasicOutcome.noData
      | r :: _ => Except.ok (BasicOutcome.showRow r)

/-- The location formula as the specification words it: the string forms
of every present (non-null) value among the five location columns in the
fixed order, joined by `", "`; `"-"` when none is present. -/
def locationSpec (row : Row) : String :=
  let ps :=
    [AREA_COL, AREA_1_COL, CITY_COL, OTHER_CITY_COL, STATE_COL].filterMap
      (fun col =>
        match row.lookup col with
        | some v => if pyNotna v then some (cellStr v) else none
        | none => none)
  if ps.isEmpty then "-" else String.intercalate ", " ps

theorem foldl_push_filterMap {α β : Type} (f : List β → α → List β) (g : α → Option β)
    (hf : ∀ acc c, f acc c = match g c with | some s => acc ++ [s] | none => acc) :
    ∀ (l : List α) (acc : List β), l.foldl f acc = acc ++ l.filterMap g := by
  intro l
  induction l with
  | nil => intro acc; simp
  | cons x xs ih =>
    intro acc
    cases hx : g x with
    | none =>
      simp only [List.foldl_cons, List.filterMap_cons, hx, hf acc x]
      exact ih acc
    | some s =>
      simp only [List.foldl_cons, List.filterMap_cons, hx, hf acc x, ih]
      simp

theorem locationOf_eq_spec (row : Row) : locationOf row = locationSpec row := by
  unfold locationOf locationSpec
  rw [foldl_push_filterMap
        (g := fun col =>
          match row.lookup col with
          | some v => if pyNotna v then some (cellStr v) else none
          | none => none)]
  · simp
  · intro acc c
    cases h : row.lookup c with
    | none => simp
    | some v => cases hv : pyNotna v <;> simp [hv]

/-- Claim C4: for every input row, the composed location field of the
vendor record equals the string forms of every present (non-null) value
among [Area, Area 1, City, Other City 1, State], joined by `", "`, and
`"-"` when none is present. -/
theorem C4_location_field (row : Row) (d : List (String × Cell))
    (h : extract_vendor_info row = Except.ok d) :
    d.lookup "location" = some (Cell.str (locationSpec row)) := by
  unfold extract_vendor_info at h
  cases hc : cuisineTextOf row with
  | error e => rw [hc] at h; exact absurd h (by simp)
  | ok ct =>
    rw [hc] at h
    injection h with h
    subst h
    simp [List.lookup, locationOf_eq_spec]

theorem cellsAsStrings_of_str (l : List Cell) (h : ∀ c ∈ l, cellIsStr c = true) :
    cellsAsStrings l = some (l.map cellStr) := by
  induction l with
  | nil => rfl
  | cons c cs ih =>
    cases c with
    | str s =>
      simp only [cellsAsStrings, List.map_cons, cellStr,
        ih (fun d hd => h d (List.mem_cons_of_mem _ hd))]
      rfl
    | num n => exact absurd (h _ (List.mem_cons_self _ _)) (by simp [cellIsStr])
    | nan => exact absurd (h _ (List.mem_cons_self _ _)) (by simp [cellIsStr])

theorem pyJoin_of_str (sep : String) (l : List Cell) (h : ∀ c ∈ l, cellIsStr c = true) :
    pyJoin sep l = Except.ok (String.intercalate sep (l.map cellStr)) := by
  simp [pyJoin, cellsAsStrings_of_str l h]

/-- The cuisine formula as the specification words it: take the two
cuisine values (with `""` substituted when absent or null), drop any
value equal to `""` or `"-"`, join the survivors with `" / "`, and use
`"-"` when none survives. -/
def cuisineSpec (row : Row) : String :=
  let survivors :=
    (([CUISINE_1_COL, CUISINE_2_COL].map (fun c => safe_get row c (Cell.str ""))).map
        cellStr).filter (fun s => !(s == "" || s == "-"))
  if survivors.isEmpty then "-" else String.intercalate " / " survivors

theorem strfilter_comm (cells : List Cell) (h : ∀ c ∈ cells, cellIsStr c = true) :
    (cells.filter
        (fun c => !(cellBEq c (Cell.str "") || cellBEq c (Cell.str "-")))).map cellStr
      = (cells.map cellStr).filter (fun s => !(s == "" || s == "-")) := by
  induction cells with
  | nil => rfl
  | cons c cs ih =>
    have ihh := ih (fun d hd => h d (List.mem_cons_of_mem _ hd))
    cases c with
    | str s =>
      by_cases h0 : s = ""
      · subst h0
        simp [List.filter_cons, cellBEq, cellStr] at ihh ⊢
        exact ihh
      · by_cases h1 : s = "-"
        · subst h1
          simp [List.filter_cons, cellBEq, cellStr] at ihh ⊢
          exact ihh
        · simp [List.filter_cons, cellBEq, cellStr, h0, h1] at ihh ⊢
          simp [ihh]
    | num n => exact absurd (h _ (List.mem_cons_self _ _)) (by simp [cellIsStr])
    | nan => exact absurd (h _ (List.mem_cons_self _ _)) (by simp [cellIsStr])

/-- Claim C5 (amended): for every row whose surviving cuisine values are
strings, the composed cuisine field equals the specification's formula:
drop `""`/`"-"`, join with `" / "`, default `"-"`.  (A non-string
surviving cuisine value instead raises `TypeError` in the join.) -/
theorem C5_cuisine_formula (row : Row)
    (h : ∀ c ∈ cuisineParts row, cellIsStr c = true) :
    cuisineTextOf row = Except.ok (cuisineSpec row) := by
  cases hc1 : safe_get row CUISINE_1_COL (Cell.str "") with
  | num n =>
    have hmem : Cell.num n ∈ cuisineParts row := by
      simp [cuisineParts, hc1, cellBEq]
    exact absurd (h _ hmem) (by simp [cellIsStr])
  | nan =>
    have hmem : Cell.nan ∈ cuisineParts row := by
      simp [cuisineParts, hc1, cellBEq]
    exact absurd (h _ hmem) (by simp [cellIsStr])
  | str a =>
    cases hc2 : safe_get row CUISINE_2_COL (Cell.str "") with
    | num n =>
      have hmem : Cell.num n ∈ cuisineParts row := by
        simp [cuisineParts, hc2, cellBEq]
      exact absurd (h _ hmem) (by simp [cellIsStr])
    | nan =>
      have hmem : Cell.nan ∈ cuisineParts row := by
        simp [cuisineParts, hc2, cellBEq]
      exact absurd (h _ hmem) (by simp [cellIsStr])
    | str b =>
      have hall : ∀ c ∈ [Cell.str a, Cell.str b], cellIsStr c = true := by
        intro c hc
        simp only [List.mem_cons, List.not_mem_nil, or_false] at hc
        rcases hc with rfl | rfl <;> rfl
      have hP : cuisineParts row
          = [Cell.str a, Cell.str b].filter
              (fun c => !(cellBEq c (Cell.str "") || cellBEq c (Cell.str "-"))) := by
        simp [cuisineParts, hc1, hc2]
      have hS : cuisineSpec row
          = if ((cuisineParts row).map cellStr).isEmpty then "-"
            else String.intercalate " / " ((cuisineParts row).map cellStr) := by
        simp only [cuisineSpec, List.map_cons, List.map_nil, hc1, hc2]
        rw [hP, strfilter_comm _ hall]
        simp [cellStr]
      rw [hS]
      have hstr : ∀ c ∈ cuisineParts row, cellIsStr c = true := h
      cases hPn : cuisineParts row with
      | nil => simp [cuisineTextOf, hPn]
      | cons x xs =>
        rw [hPn] at hstr
        simp only [cuisineTextOf]
        rw [hPn, pyJoin_of_str " / " (x :: xs) hstr]
        simp

theorem cuisineTextOf_ok (row : Row)
    (h : ∀ c ∈ cuisineParts row, cellIsStr c = true) :
    ∃ s, cuisineTextOf row = Except.ok s := by
  simp only [cuisineTextOf]
  cases hPn : cuisineParts row with
  | nil => exact ⟨"-", by simp⟩
  | cons x xs =>
    rw [hPn] at h
    refine ⟨String.intercalate " / " ((x :: xs).map cellStr), ?_⟩
    rw [if_neg (by simp : ¬((x :: xs).isEmpty = true))]
    exact pyJoin_of_str " / " (x :: xs) h

/-- Claim C5 counterexample: on a row whose surviving cuisine value is a
number, the cuisine field is not computed at all — the join raises
`TypeError` — so the field does not equal the claimed formula. -/
theorem C5_counterexample :
    cuisineTextOf [("Cuisine Type 2", Cell.num 7)] = Except.error "TypeError"
    ∧ ¬ (cuisineTextOf [("Cuisine Type 2", Cell.num 7)]
          = Except.ok (cuisineSpec [("Cuisine Type 2", Cell.num 7)])) := by
  have h1 : cuisineTextOf [("Cuisine Type 2", Cell.num 7)] = Except.error "TypeError" := rfl
  exact ⟨h1, fun hcontra => Except.noConfusion (h1 ▸ hcontra)⟩

/-- Concrete row for the C5 witness. -/
def c5Row : Row := [("Cuisine type 1", Cell.str "Italian")]

theorem C5_cuisine_formula_witness :
    (∀ c ∈ cuisineParts c5Row, cellIsStr c = true)
    ∧ cuisineTextOf c5Row = Except.ok "Italian" := by
  refine ⟨by decide, ?_⟩
  rw [C5_cuisine_formula c5Row (by decide)]
  rfl

/-- Claim C3 (amended): for every row whose surviving cuisine values are
strings (in particular for any row with arbitrary subsets of the schema
columns missing, null, NaN or empty and textual data elsewhere),
`extract_vendor_info` returns a dict with exactly the ten fixed keys in
order, never raising.  (A numeric surviving cuisine value instead raises
`TypeError`.) -/
theorem C3_extract_total_keys (row : Row)
    (h : ∀ c ∈ cuisineParts row, cellIsStr c = true) :
    ∃ d, extract_vendor_info row = Except.ok d ∧ d.map Prod.fst = fixedKeys := by
  obtain ⟨s, hs⟩ := cuisineTextOf_ok row h
  refine ⟨[("vendor_code", safe_get row VENDOR_CODE_COL (Cell.str "-")),
           ("vendor_name", safe_get row VENDOR_NAME_COL (Cell.str "-")),
           ("owner_name", safe_get row NAME_COL (Cell.str "-")),
           ("phone", safe_get row PHONE_COL (Cell.str "-")),
           ("email", safe_get row EMAIL_COL (Cell.str "-")),
           ("location", Cell.str (locationOf row)),
           ("category", safe_get row CATEGORY_COL (Cell.str "-")),
           ("cuisine_text", Cell.str s),
           ("service_model", safe_get row SERVICE_MODEL_COL (Cell.str "-")),
           ("serving_capacity", safe_get row SERVING_CAP_COL (Cell.str "-"))],
          ?_, by simp [fixedKeys]⟩
  simp [extract_vendor_info, hs]

/-- Claim C3 counterexample: a row whose cuisine column holds a number
makes `extract_vendor_info` raise `TypeError` in the cuisine join, so the
extraction is not exception-free on every row of the data model. -/
theorem C3_counterexample :
    extract_vendor_info [("Cuisine type 1", Cell.num 9)] = Except.error "TypeError" := rfl

theorem C3_extract_total_keys_witness :
    ∃ d, extract_vendor_info [] = Except.ok d ∧ d.map Prod.fst = fixedKeys :=
  C3_extract_total_keys [] (by decide)

/-- Concrete row and extracted dict for the C4 witness. -/
def c4Row : Row :=
  [("Area", Cell.str "Downtown"), ("City", Cell.str "Springfield"), ("State", Cell.str "IL")]

def c4Dict : List (String × Cell) :=
  [("vendor_code", Cell.str "-"), ("vendor_name", Cell.str "-"),
   ("owner_name", Cell.str "-"), ("phone", Cell.str "-"),
   ("email", Cell.str "-"), ("location", Cell.str "Downtown, Springfield, IL"),
   ("category", Cell.str "-"), ("cuisine_text", Cell.str "-"),
   ("service_model", Cell.str "-"), ("serving_capacity", Cell.str "-")]

theorem C4_location_field_witness :
    extract_vendor_info c4Row = Except.ok c4Dict
    ∧ c4Dict.lookup "location" = some (Cell.str (locationSpec c4Row))
    ∧ locationSpec c4Row = "Downtown, Springfield, IL" :=
  ⟨rfl, C4_location_field c4Row c4Dict rfl, rfl⟩

theorem colIdxAux_eq_none (c : String) (l : List String) (h : c ∉ l) :
    colIdxAux c l = none := by
  induction l with
  | nil => rfl
  | cons x xs ih =>
    have hx : (x == c) = false := by
      simp only [beq_eq_false_iff_ne, ne_eq]
      intro he
      exact h (he ▸ List.mem_cons_self x xs)
    simp [colIdxAux, hx, ih (fun hm => h (List.mem_cons_of_mem _ hm))]

/-- Claim C1 (amended): field accesses through `safe_get` degrade to the
placeholder `"-"` when a column is absent from the row, but the vendor
selector (line 188) reads the vendor-name column unguarded, so a table
lacking "Vendor Name" raises `KeyError` before anything renders: absence
of that one column is fatal. -/
theorem C1_vendor_name_fatal (df : DataFrame) (row : Row) (c : String)
    (hdf : VENDOR_NAME_COL ∉ df.cols) (hrow : row.lookup c = none) :
    vendor_list df = Except.error VENDOR_NAME_COL
    ∧ safe_get row c (Cell.str "-") = Cell.str "-" := by
  constructor
  · simp [vendor_list, dfColumn, colIdx, colIdxAux_eq_none _ _ hdf]
  · simp [safe_get, hrow]

/-- A table without the vendor-name column. -/
def c1Df : DataFrame := { cols := ["Area"], rows := [[Cell.str "Mumbai"]] }

/-- Claim C1 counterexample: uploading a table without a "Vendor Name"
column makes the module-level `vendor_list` expression raise `KeyError`,
so rendering does not proceed with placeholders. -/
theorem C1_counterexample : vendor_list c1Df = Except.error "Vendor Name" := rfl

theorem C1_vendor_name_fatal_witness :
    vendor_list c1Df = Except.error VENDOR_NAME_COL
    ∧ safe_get [("Area", Cell.str "Mumbai")] "Phone Number" (Cell.str "-") = Cell.str "-" :=
  C1_vendor_name_fatal c1Df [("Area", Cell.str "Mumbai")] "Phone Number"
    (by decide) (by decide)

/-- Claim C9: after a successful parse, every column header is stripped of
leading and trailing whitespace, and each original header is accessible
under its trimmed name. -/
theorem C9_headers_stripped (df : DataFrame) :
    (load_vendor_data df).cols = df.cols.map pyStrip
    ∧ ∀ c, c ∈ df.cols → pyStrip c ∈ (load_vendor_data df).cols :=
  ⟨rfl, fun _ hc => List.mem_map_of_mem pyStrip hc⟩

/-- A parsed frame whose first header carries stray whitespace. -/
def c9Df : DataFrame := { cols := ["  Vendor Code ", "X"], rows := [] }

theorem C9_headers_stripped_witness :
    "Vendor Code" ∈ (load_vendor_data c9Df).cols := by
  have h := (C9_headers_stripped c9Df).2 "  Vendor Code " (by decide)
  rw [show pyStrip "  Vendor Code " = "Vendor Code" from rfl] at h
  exact h

/-- The text-search criterion as the code applies it per row: pass when
the query is empty or no textual column exists, otherwise pass when some
textual column's stringified value contains the query. -/
def textPass (df : DataFrame) (q : String) (r : List Cell) : Bool :=
  if q = "" then true
  else if (stringColIdxs df).isEmpty then true
  else rowTextMatch df q r

/-- The serving-capacity criterion as the code applies it per row: pass
when the selector is `"All"` or the column is absent, otherwise pass when
the stringified serving-capacity cell equals the selector. -/
def capPass (df : DataFrame) (sel : String) (r : List Cell) : Bool :=
  if sel = "All" then true
  else
    match colIdx df SERVING_CAP_COL with
    | some j => cellStr (rowGet r j) == sel
    | none => true

theorem searchFiltered_cols (df : DataFrame) (q : String) :
    (searchFiltered df q).cols = df.cols := by
  unfold searchFiltered
  split_ifs <;> rfl

theorem mem_searchFiltered (df : DataFrame) (q : String) (r : List Cell) :
    r ∈ (searchFiltered df q).rows ↔ r ∈ df.rows ∧ textPass df q r = true := by
  unfold searchFiltered textPass
  split_ifs with h1 h2
  · simp
  · simp
  · simp [List.mem_filter]

theorem mem_capFiltered (df : DataFrame) (sel : String) (r : List Cell) :
    r ∈ (capFiltered df sel).rows ↔ r ∈ df.rows ∧ capPass df sel r = true := by
  unfold capFiltered capPass
  split_ifs with h1
  · simp
  · cases hj : colIdx df SERVING_CAP_COL with
    | none => simp
    | some j => simp [List.mem_filter]

theorem searchFiltered_sublist (df : DataFrame) (q : String) :
    (searchFiltered df q).rows.Sublist df.rows := by
  unfold searchFiltered
  split_ifs
  · exact List.Sublist.refl _
  · exact List.Sublist.refl _
  · exact List.filter_sublist _

theorem capFiltered_sublist (df : DataFrame) (sel : String) :
    (capFiltered df sel).rows.Sublist df.rows := by
  unfold capFiltered
  split_ifs
  · exact List.Sublist.refl _
  · cases colIdx df SERVING_CAP_COL
    · exact List.Sublist.refl _
    · exact List.filter_sublist _

theorem capPass_searchFiltered (df : DataFrame) (q sel : String) (r : List Cell) :
    capPass (searchFiltered df q) sel r = capPass df sel r := by
  unfold capPass colIdx
  rw [searchFiltered_cols]

/-- Claim C7: for every table, every selector, and every query free of
regex metacharacters (the domain on which the embedded search predicate
coincides with the source's `str.contains`; metacharacter queries fall
under the search-box regex bug), a row appears in the advanced-mode
result set if and only if it passes both the text-search criterion and
the serving-capacity criterion, and the result is an ordered subset of
the table's rows with the original relative order preserved. -/
theorem C7_conjunction_order (df : DataFrame) (q sel : String)
    (hq : q.data.all (fun c => !isRegexMeta c) = true) :
    (∀ r, r ∈ (advancedResults df q sel).rows
        ↔ r ∈ df.rows ∧ textPass df q r = true ∧ capPass df sel r = true)
    ∧ (advancedResults df q sel).rows.Sublist df.rows := by
  constructor
  · intro r
    unfold advancedResults
    rw [mem_capFiltered, mem_searchFiltered, capPass_searchFiltered]
    tauto
  · exact (capFiltered_sublist _ _).trans (searchFiltered_sublist _ _)

/-- Table whose rows separate the two criteria: one row passes both, one
passes only the capacity filter, one passes only the search. -/
def c7Df : DataFrame :=
  { cols := ["Vendor Name", "Serving Capacity"],
    rows := [[Cell.str "Pizza Palace", Cell.str "500"],
             [Cell.str "Pasta Place", Cell.str "500"],
             [Cell.str "Pizza Hub", Cell.str "5000"]] }

theorem C7_conjunction_order_witness :
    [Cell.str "Pizza Palace", Cell.str "500"] ∈ (advancedResults c7Df "pizza" "500").rows
    ∧ ¬ [Cell.str "Pasta Place", Cell.str "500"] ∈ (advancedResults c7Df "pizza" "500").rows
    ∧ ¬ [Cell.str "Pizza Hub", Cell.str "5000"] ∈ (advancedResults c7Df "pizza" "500").rows
    ∧ (advancedResults c7Df "pizza" "500").rows.Sublist c7Df.rows := by
  have h := C7_conjunction_order c7Df "pizza" "500" (by decide)
  refine ⟨(h.1 _).mpr (by decide), ?_, ?_, h.2⟩
  · intro hmem
    have hc := (h.1 _).mp hmem
    revert hc
    decide
  · intro hmem
    have hc := (h.1 _).mp hmem
    revert hc
    decide

theorem colIdxAux_eq_none_iff (c : String) (l : List String) :
    colIdxAux c l = none ↔ c ∉ l := by
  induction l with
  | nil => simp [colIdxAux]
  | cons x xs ih =>
    by_cases hx : x = c
    · subst hx
      simp [colIdxAux]
    · simp [colIdxAux, hx, ih, Option.map_eq_none']
      exact fun _ h => hx h.symm

/-- The claim's serving-capacity criterion: the row's serving-capacity
value's string form equals the selector exactly and case-sensitively. -/
def capMatchStr (df : DataFrame) (sel : String) (r : List Cell) : Bool :=
  match colIdx df SERVING_CAP_COL with
  | some j => cellStr (rowGet r j) == sel
  | none => false

/-- Claim C6: with a selector other than `"All"` and the serving-capacity
column present, exactly the rows whose serving-capacity string form
equals the selector are retained; with `"All"` or an absent column, no
row is excluded. -/
theorem C6_capacity_exact (df : DataFrame) (sel : String) :
    (sel ≠ "All" → SERVING_CAP_COL ∈ df.cols →
      ∀ r, r ∈ (capFiltered df sel).rows ↔ r ∈ df.rows ∧ capMatchStr df sel r = true)
    ∧ ((sel = "All" ∨ SERVING_CAP_COL ∉ df.cols) → (capFiltered df sel).rows = df.rows) := by
  constructor
  · intro hsel hcol r
    cases hj : colIdx df SERVING_CAP_COL with
    | none =>
      exact absurd ((colIdxAux_eq_none_iff SERVING_CAP_COL df.cols).mp hj)
        (not_not_intro hcol)
    | some j =>
      unfold capFiltered capMatchStr
      rw [if_neg hsel, hj]
      simp [List.mem_filter]
  · intro hor
    unfold capFiltered
    rcases hor with h1 | h2
    · rw [if_pos h1]
    · split_ifs with h1
      · rfl
      · have hn : colIdx df SERVING_CAP_COL = none :=
          (colIdxAux_eq_none_iff SERVING_CAP_COL df.cols).mpr h2
        rw [hn]

/-- Two-row capacity table distinguishing `"500"` from `"5000"`. -/
def c6Df : DataFrame :=
  { cols := ["Serving Capacity"], rows := [[Cell.str "500"], [Cell.str "5000"]] }

theorem C6_capacity_exact_witness :
    [Cell.str "500"] ∈ (capFiltered c6Df "500").rows
    ∧ ¬ [Cell.str "5000"] ∈ (capFiltered c6Df "500").rows := by
  have h := (C6_capacity_exact c6Df "500").1 (by decide) (by decide)
  constructor
  · exact (h [Cell.str "500"]).mpr (by decide)
  · intro hmem
    exact absurd ((h [Cell.str "5000"]).mp hmem).2 (by decide)

/-- Claim C10: a row with a missing value in a textual column is retained
by the text search whenever the query is a case-insensitive substring of
`"nan"`, because missing values stringify to the literal `"nan"`. -/
theorem C10_nan_matches (df : DataFrame) (q : String) (r : List Cell)
    (hmem : r ∈ df.rows) (hnan : ∃ j ∈ stringColIdxs df, rowGet r j = Cell.nan)
    (hq : pyContainsCI "nan" q = true) :
    r ∈ (searchFiltered df q).rows := by
  rw [mem_searchFiltered]
  refine ⟨hmem, ?_⟩
  unfold textPass
  split_ifs with h1 h2
  · rfl
  · rfl
  · obtain ⟨j, hj, hjn⟩ := hnan
    unfold rowTextMatch
    rw [List.any_eq_true]
    refine ⟨j, hj, ?_⟩
    rw [hjn]
    exact hq

/-- One textual column holding a missing value and a real name. -/
def c10Df : DataFrame :=
  { cols := ["Vendor Name"], rows := [[Cell.nan], [Cell.str "Alpha"]] }

theorem C10_nan_matches_witness :
    [Cell.nan] ∈ (searchFiltered c10Df "NA").rows :=
  C10_nan_matches c10Df "NA" [Cell.nan] (by decide) ⟨0, by decide, by decide⟩ (by decide)

theorem find_eq_head_filter {α : Type} (p : α → Bool) (l : List α) :
    l.find? p = (l.filter p).head? := by
  induction l with
  | nil => rfl
  | cons a t ih =>
    cases ha : p a with
    | true =>
      rw [List.find?_cons_of_pos _ ha, List.filter_cons_of_pos ha]
      rfl
    | false =>
      rw [List.find?_cons_of_neg _ (by simp [ha]), List.filter_cons_of_neg (by simp [ha])]
      exact ih

/-- Claim C8: with a selected vendor other than `"All Vendors"` and the
vendor-name column present, basic mode displays exactly the first row (in
original table order) whose vendor-name cell equals the selection, and
reports "no data" when no row matches. -/
theorem C8_first_match (df : DataFrame) (sel : Cell) (j : Nat)
    (hsel : cellBEq sel (Cell.str "All Vendors") = false)
    (hj : colIdx df VENDOR_NAME_COL = some j) :
    basicMode df sel =
      Except.ok
        (match df.rows.find? (fun r => cellBEq (rowGet r j) sel) with
         | some r => BasicOutcome.showRow r
         | none => BasicOutcome.noData) := by
  unfold basicMode
  rw [if_neg (by simp [hsel]), hj, find_eq_head_filter]
  dsimp only
  cases hf : df.rows.filter (fun r => cellBEq (rowGet r j) sel) with
  | nil => rfl
  | cons r rs => rfl

/-- Vendor table with a duplicated vendor name. -/
def c8Df : DataFrame :=
  { cols := ["Vendor Name", "City"],
    rows := [[Cell.str "Alpha", Cell.str "X"],
             [Cell.str "Alpha", Cell.str "Y"],
             [Cell.str "Beta", Cell.str "Z"]] }

theorem C8_first_match_witness :
    basicMode c8Df (Cell.str "Alpha")
      = Except.ok (BasicOutcome.showRow [Cell.str "Alpha", Cell.str "X"])
    ∧ basicMode c8Df (Cell.str "Gamma") = Except.ok BasicOutcome.noData := by
  constructor
  · rw [C8_first_match c8Df (Cell.str "Alpha") 0 (by decide) (by decide)]
    rfl
  · rw [C8_first_match c8Df (Cell.str "Gamma") 0 (by decide) (by decide)]
    rfl
